import Mathlib

/-!
Verification development for the MQTT_LINGDONGKAIGUAN ESP32-C2 smart switch
firmware (single sketch `MQTT_LINGDONGKAIGUAN.ino`).

The sketch is embedded shallowly: ESP32 `Preferences` namespaces become
association lists of string key/value pairs, GPIO and MQTT side effects become
an explicit `Effect` trace, and each C function becomes a pure Lean function on
an explicit `Device` state.  Timing (`delay`) appears in the effect trace as
`Effect.delayMs`.
-/

namespace MqttSwitch

/-- A `Preferences` namespace: association list of key/value string pairs.
`getString` on an absent key yields the supplied default; a key stored with the
empty-string value is returned as the empty string (matching ESP32
`Preferences::getString`). -/
abbrev Prefs := List (String × String)

/-- Lookup of a key in a namespace (first matching entry). -/
def prefsGet : Prefs → String → Option String
  | [], _ => none
  | (k0, v) :: rest, k => if k0 = k then some v else prefsGet rest k

/-- Embeds `Preferences::getString(key, default)`: the stored value when the key
exists, the default otherwise. -/
def getString (p : Prefs) (k dflt : String) : String :=
  (prefsGet p k).getD dflt

/-- Embeds `Preferences::putString(key, value)`: overwrite the entry for `key`, or
append it when absent. -/
def putString : Prefs → String → String → Prefs
  | [], k, v => [(k, v)]
  | (k0, v0) :: rest, k, v =>
      if k0 = k then (k, v) :: rest else (k0, v0) :: putString rest k v

/-- The compiled version string, `#define FIRMWARE_VERSION "1.0.0"`. -/
def FIRMWARE_VERSION : String := "1.0.0"

/-- The version storage key, `#define VERSION_KEY "fw_version"`. -/
def VERSION_KEY : String := "fw_version"

/-- The long-press threshold, `#define RESET_HOLD_TIME 5000` (milliseconds). -/
def RESET_HOLD_TIME : Nat := 5000

/-- Observable side effects of the sketch, in program order: MQTT publishes
and subscriptions, `delay` calls, writes to the power pin, LED blink
sequences, and `ESP.restart()`. -/
inductive Effect where
  | publish (msg : String)
  | subscribe (topic : String)
  | delayMs (n : Nat)
  | setPower (high : Bool)
  | ledBlink (times : Nat)
  | restart
deriving DecidableEq, Repr

/-- Global device state: the two `Preferences` namespaces (`iot_config` and
`system_flags`), the WiFi association kept by `WiFiManager`, the MQTT
connection state, the `firstMessageSent` flag, the logical level of the power
pin, the level currently read from the button pin (`HIGH` = not held, the
input is pulled up), the list of published MQTT message bodies, and whether
`ESP.restart()` has been invoked. -/
structure Device where
  iot : Prefs
  flags : Prefs
  wifiAssociated : Bool
  connected : Bool
  firstMessageSent : Bool
  powerHigh : Bool
  buttonHigh : Bool
  published : List String
  restarted : Bool
deriving DecidableEq, Repr

/-- Embeds `checkFirmwareVersion()`: read `fw_version` from `system_flags` (default
`""`); when it differs from `FIRMWARE_VERSION`, clear `iot_config`, reset the
WiFi settings, store the compiled version under `fw_version`, and blink the
default LED ten times; when it matches, do nothing. -/
def checkFirmwareVersion (d : Device) : Device × List Effect :=
  let savedVersion := getString d.flags VERSION_KEY ""
  if savedVersion ≠ FIRMWARE_VERSION then
    ({ d with iot := [],
              wifiAssociated := false,
              flags := putString d.flags VERSION_KEY FIRMWARE_VERSION },
     [Effect.ledBlink 10])
  else
    (d, [])

/-- JSON body built by `publishData`: `snprintf(message, 50, "{\"status\":\"%s\"}", status)`. -/
def jsonStatus (status : String) : String :=
  "\x7b\"status\":\"" ++ status ++ "\"\x7d"

/-- Embeds `publishData(status)`: when the MQTT client is connected, publish the JSON
status body; if this is the first message, the status is `"system_startup"`
and the button pin reads `HIGH` (not held), then set `firstMessageSent`, wait
500 ms and drive the power pin `LOW`.  When disconnected, do nothing. -/
def publishData (d : Device) (status : String) : Device × List Effect :=
  if d.connected then
    let msg := jsonStatus status
    let d1 := { d with published := d.published ++ [msg] }
    if (!d1.firstMessageSent && (status == "system_startup") && d1.buttonHigh) then
      ({ d1 with firstMessageSent := true, powerHigh := false },
       [Effect.publish msg, Effect.delayMs 500, Effect.setPower false,
        Effect.delayMs 100])
    else
      (d1, [Effect.publish msg])
  else
    (d, [])

/-- Embeds `clearAllData()`: blink the LED five times, clear the `iot_config`
namespace, clear the `system_flags` namespace, reset the WiFi settings, wait
one second and restart. -/
def clearAllData (d : Device) : Device × List Effect :=
  ({ d with iot := [], flags := [], wifiAssociated := false, restarted := true },
   [Effect.ledBlink 5, Effect.delayMs 1000, Effect.restart])

/-- Embeds `resetConfig()`: toggle the LED ten times, reset the WiFi settings and
restart.  The two `Preferences` namespaces are not touched. -/
def resetConfig (d : Device) : Device × List Effect :=
  ({ d with wifiAssociated := false, restarted := true },
   [Effect.ledBlink 10, Effect.restart])

/-- Embeds `callback(topic, payload, length)` after the payload bytes have been
copied into a NUL-terminated string: `"clear_all_data"` runs `clearAllData`;
`"on"` drives the power pin `HIGH` then publishes status `"on"`; `"off"`
drives it `LOW` then publishes status `"off"`; anything else falls through. -/
def callbackStep (d : Device) (message : String) : Device × List Effect :=
  if message = "clear_all_data" then
    clearAllData d
  else if message = "on" then
    let d1 := { d with powerHigh := true }
    let r := publishData d1 "on"
    (r.1, Effect.setPower true :: r.2)
  else if message = "off" then
    let d1 := { d with powerHigh := false }
    let r := publishData d1 "off"
    (r.1, Effect.setPower false :: r.2)
  else
    (d, [])

/-- The in-memory configuration globals of the sketch: the five MQTT
parameters and the three pin-number strings. -/
structure Config where
  mqtt_server : String
  mqtt_port : String
  mqtt_user : String
  mqtt_password : String
  mqtt_topic : String
  button_pin : String
  led_pin : String
  power_pin : String
deriving DecidableEq, Repr

/-- Compiled defaults of the globals (lines 49-58 of the sketch):
server `""`, port `"1883"`, user `""`, password `""`, topic `"esp32"`,
button pin `"9"`, LED pin `"8"`, power pin `"7"`. -/
def defaultConfig : Config :=
  { mqtt_server := ""
    mqtt_port := "1883"
    mqtt_user := ""
    mqtt_password := ""
    mqtt_topic := "esp32"
    button_pin := "9"
    led_pin := "8"
    power_pin := "7" }

/-- Embeds the read of the stored power pin in `setupPowerPin()`: overwrite `power_pin`
when a non-empty value is stored under `"power_pin"`. -/
def setupPowerPinLoad (c : Config) (iot : Prefs) : Config :=
  let savedPowerPin := getString iot "power_pin" ""
  if savedPowerPin ≠ "" then { c with power_pin := savedPowerPin } else c

/-- The configuration-loading block of `setup()` (lines 261-284): read
`"server"`; only when it is non-empty, overwrite server, port, user, password
and topic (with per-key read defaults `"1883"`, `""`, `""`, `"esp32c2"`);
then, independently, overwrite the LED pin and the button pin when non-empty
values are stored. -/
def loadConfigFields (c : Config) (iot : Prefs) : Config :=
  let savedServer := getString iot "server" ""
  let c1 :=
    if savedServer ≠ "" then
      { c with mqtt_server := savedServer,
               mqtt_port := getString iot "port" "1883",
               mqtt_user := getString iot "user" "",
               mqtt_password := getString iot "password" "",
               mqtt_topic := getString iot "topic" "esp32c2" }
    else c
  let savedLedPin := getString iot "led_pin" ""
  let c2 := if savedLedPin ≠ "" then { c1 with led_pin := savedLedPin } else c1
  let savedButtonPin := getString iot "button_pin" ""
  if savedButtonPin ≠ "" then { c2 with button_pin := savedButtonPin } else c2

/-- Everything `setup()` loads from the `iot_config` namespace into the
compiled defaults: `setupPowerPin()` first, then the config block. -/
def bootLoad (iot : Prefs) : Config :=
  loadConfigFields (setupPowerPinLoad defaultConfig iot) iot

/-- The save block of `setup()` (lines 347-358, run when `shouldSaveConfig`):
write all eight fields of the in-memory configuration into `iot_config`. -/
def saveConfig (c : Config) (p : Prefs) : Prefs :=
  putString (putString (putString (putString (putString (putString (putString
    (putString p "server" c.mqtt_server)
    "port" c.mqtt_port)
    "user" c.mqtt_user)
    "password" c.mqtt_password)
    "topic" c.mqtt_topic)
    "button_pin" c.button_pin)
    "led_pin" c.led_pin)
    "power_pin" c.power_pin

/-- Spec-style per-field description of the boot-time load, used to state the
amended form of the field-independence claim: the server and the three pin
fields are loaded independently whenever a non-empty value is stored; port,
user, password and topic are loaded only when the stored server is non-empty,
with read defaults `"1883"`, `""`, `""`, `"esp32c2"` for absent keys. -/
def loadAmendedSpec (iot : Prefs) : Config :=
  { mqtt_server :=
      if getString iot "server" "" ≠ "" then getString iot "server" ""
      else defaultConfig.mqtt_server
    mqtt_port :=
      if getString iot "server" "" ≠ "" then getString iot "port" "1883"
      else defaultConfig.mqtt_port
    mqtt_user :=
      if getString iot "server" "" ≠ "" then getString iot "user" ""
      else defaultConfig.mqtt_user
    mqtt_password :=
      if getString iot "server" "" ≠ "" then getString iot "password" ""
      else defaultConfig.mqtt_password
    mqtt_topic :=
      if getString iot "server" "" ≠ "" then getString iot "topic" "esp32c2"
      else defaultConfig.mqtt_topic
    button_pin :=
      if getString iot "button_pin" "" ≠ "" then getString iot "button_pin" ""
      else defaultConfig.button_pin
    led_pin :=
      if getString iot "led_pin" "" ≠ "" then getString iot "led_pin" ""
      else defaultConfig.led_pin
    power_pin :=
      if getString iot "power_pin" "" ≠ "" then getString iot "power_pin" ""
      else defaultConfig.power_pin }

/-- One iteration of the `while (!client.connected() && retry < 3)` loop of
`connectMQTT()`, recursing on the number of remaining attempts
(`3 - retry`).  `attempt i` is the outcome of `client.connect` on the i-th
try; a success subscribes to `<topic>/control` and returns `true`, a failure
waits 2000 ms and retries.  The result carries the return value, the number
of attempts made, and the effect trace. -/
def connectGo (attempt : Nat → Bool) (topic : String) :
    Nat → Nat → Bool × Nat × List Effect
  | _, 0 => (false, 0, [])
  | retry, remaining + 1 =>
      if attempt retry then
        (true, 1, [Effect.subscribe (topic ++ "/control")])
      else
        let r := connectGo attempt topic (retry + 1) remaining
        (r.1, r.2.1 + 1, Effect.delayMs 2000 :: r.2.2)

/-- Embeds `connectMQTT()`: when the client is already connected the loop body never
runs and the function returns `false`; otherwise run up to three attempts. -/
def connectMQTT (attempt : Nat → Bool) (topic : String) (connected : Bool) :
    Bool × Nat × List Effect :=
  if connected then (false, 0, []) else connectGo attempt topic 0 3

/-- The state touched by `checkResetButton()`: `buttonPressTime` (0 = no
press recorded), the `longPressActive` latch, and the number of times
`resetConfig()` has been invoked. -/
structure ButtonState where
  buttonPressTime : Nat
  longPressActive : Bool
  resets : Nat
deriving DecidableEq, Repr

/-- Embeds `checkResetButton()` for one loop iteration: `now` is `millis()`,
`levelHigh` the level read from the button pin (`LOW` = pressed).  On a press
with no recorded timestamp, record `now`; while pressed, if the latch is
clear and more than `RESET_HOLD_TIME` ms have elapsed, set the latch and run
the reset; on release, clear the timestamp and the latch. -/
def checkResetButton (st : ButtonState) (now : Nat) (levelHigh : Bool) :
    ButtonState :=
  if levelHigh = false then
    if st.buttonPressTime = 0 then
      { st with buttonPressTime := now }
    else if st.longPressActive = false ∧
            RESET_HOLD_TIME < now - st.buttonPressTime then
      { st with longPressActive := true, resets := st.resets + 1 }
    else st
  else
    { st with buttonPressTime := 0, longPressActive := false }

/-- Run `checkResetButton` over a sequence of per-loop samples
`(millis, level)`. -/
def runButton (st : ButtonState) (samples : List (Nat × Bool)) : ButtonState :=
  samples.foldl (fun s sample => checkResetButton s sample.1 sample.2) st

/-- A sequence of samples during which the button reads `LOW` (pressed). -/
def holdTrace (ts : List Nat) : List (Nat × Bool) :=
  ts.map (fun t => (t, false))

/-- A concrete device used to instantiate the hypothesis-bearing theorems:
stored firmware version `"0.9"` (differs from the compiled `"1.0.0"`),
connected, button not held, first message not yet sent. -/
def sampleDevice : Device :=
  { iot := [("server", "mqtt.example.com")]
    flags := [("fw_version", "0.9")]
    wifiAssociated := true
    connected := true
    firstMessageSent := false
    powerHigh := true
    buttonHigh := true
    published := []
    restarted := false }

/-- A concrete device whose stored firmware version matches the compiled one. -/
def sampleMatchedDevice : Device :=
  { sampleDevice with flags := [("fw_version", "1.0.0")] }

/-- A concrete device whose button pin reads `LOW` (held). -/
def sampleHeldDevice : Device :=
  { sampleDevice with buttonHigh := false }

/-- A concrete device whose MQTT client is disconnected. -/
def sampleDisconnectedDevice : Device :=
  { sampleDevice with connected := false }

/-- A concrete device whose `firstMessageSent` latch is already set. -/
def sampleLatchedDevice : Device :=
  { sampleDevice with firstMessageSent := true }

/-- A concrete configuration with every gating field non-empty, used to
instantiate the save/load round-trip. -/
def sampleConfig : Config :=
  { mqtt_server := "mqtt.example.com"
    mqtt_port := "1883"
    mqtt_user := "user1"
    mqtt_password := "pw1"
    mqtt_topic := "switch1"
    button_pin := "9"
    led_pin := "8"
    power_pin := "7" }

/-- A concrete configuration with an empty server and a non-default topic:
the save/load round-trip fails on it. -/
def emptyServerConfig : Config :=
  { defaultConfig with mqtt_topic := "custom" }

theorem prefsGet_putString_same (p : Prefs) (k v : String) :
    prefsGet (putString p k v) k = some v := by
  induction p with
  | nil => simp [putString, prefsGet]
  | cons kv rest ih =>
      by_cases h : kv.1 = k
      · simp [putString, h, prefsGet]
      · simp [putString, h, prefsGet, ih]

theorem prefsGet_putString_other (p : Prefs) (k k1 v : String) (h : k1 ≠ k) :
    prefsGet (putString p k v) k1 = prefsGet p k1 := by
  induction p with
  | nil => simp [putString, prefsGet, Ne.symm h]
  | cons kv rest ih =>
      by_cases hk : kv.1 = k
      · simp [putString, hk, prefsGet, Ne.symm h]
      · simp [putString, hk, prefsGet, ih]

theorem getString_putString_same (p : Prefs) (k v dflt : String) :
    getString (putString p k v) k dflt = v := by
  simp [getString, prefsGet_putString_same]

theorem runButton_cons (st : ButtonState) (s : Nat × Bool)
    (rest : List (Nat × Bool)) :
    runButton st (s :: rest) = runButton (checkResetButton st s.1 s.2) rest :=
  rfl

theorem runButton_append (st : ButtonState) (xs ys : List (Nat × Bool)) :
    runButton st (xs ++ ys) = runButton (runButton st xs) ys := by
  simp [runButton, List.foldl_append]

theorem checkResetButton_release (st : ButtonState) (now : Nat) :
    checkResetButton st now true = ⟨0, false, st.resets⟩ := by
  simp [checkResetButton]

theorem runButton_hold_latched (ts : List Nat) (t0 n : Nat) (h : t0 ≠ 0) :
    runButton ⟨t0, true, n⟩ (holdTrace ts) = ⟨t0, true, n⟩ := by
  induction ts with
  | nil => rfl
  | cons t ts ih =>
      have hstep : checkResetButton ⟨t0, true, n⟩ t false = ⟨t0, true, n⟩ := by
        simp [checkResetButton, h]
      simpa [holdTrace, runButton_cons, hstep] using ih

theorem runButton_hold_pressed (ts : List Nat) (t0 n : Nat) (h : t0 ≠ 0) :
    runButton ⟨t0, false, n⟩ (holdTrace ts) =
      if ts.any (fun t => decide (RESET_HOLD_TIME < t - t0)) then
        ⟨t0, true, n + 1⟩
      else ⟨t0, false, n⟩ := by
  induction ts with
  | nil => simp [holdTrace, runButton]
  | cons t ts ih =>
      by_cases htr : RESET_HOLD_TIME < t - t0
      · have hstep : checkResetButton ⟨t0, false, n⟩ t false = ⟨t0, true, n + 1⟩ := by
          simp [checkResetButton, h, htr]
        have hl := runButton_hold_latched ts t0 (n + 1) h
        simp only [holdTrace] at hl
        simp [holdTrace, runButton_cons, hstep, htr, hl]
      · have hstep : checkResetButton ⟨t0, false, n⟩ t false = ⟨t0, false, n⟩ := by
          simp [checkResetButton, h, htr]
        simpa [holdTrace, runButton_cons, hstep, htr] using ih

/-- C1: on every boot, when the stored firmware version differs from the
compiled one (in particular whenever the key is absent), the version check
leaves the `iot_config` namespace empty, forgets the WiFi association, and
stores the compiled version under the version key; when the stored version
equals the compiled one, the check changes nothing. -/
theorem checkFirmwareVersion_migration (d : Device) :
    (getString d.flags VERSION_KEY "" ≠ FIRMWARE_VERSION →
       (checkFirmwareVersion d).1.iot = [] ∧
       (checkFirmwareVersion d).1.wifiAssociated = false ∧
       getString (checkFirmwareVersion d).1.flags VERSION_KEY "" =
         FIRMWARE_VERSION) ∧
    (prefsGet d.flags VERSION_KEY = none →
       getString d.flags VERSION_KEY "" ≠ FIRMWARE_VERSION) ∧
    (getString d.flags VERSION_KEY "" = FIRMWARE_VERSION →
       checkFirmwareVersion d = (d, [])) := by
  refine ⟨?_, ?_, ?_⟩
  · intro h
    simp [checkFirmwareVersion, h, getString_putString_same]
  · intro h
    simp [getString, h, FIRMWARE_VERSION]
  · intro h
    simp [checkFirmwareVersion, h]

theorem checkFirmwareVersion_migration_witness :
    ((checkFirmwareVersion sampleDevice).1.iot = [] ∧
     (checkFirmwareVersion sampleDevice).1.wifiAssociated = false ∧
     getString (checkFirmwareVersion sampleDevice).1.flags VERSION_KEY "" =
       FIRMWARE_VERSION) ∧
    checkFirmwareVersion sampleMatchedDevice = (sampleMatchedDevice, []) :=
  ⟨(checkFirmwareVersion_migration sampleDevice).1 (by decide),
   (checkFirmwareVersion_migration sampleMatchedDevice).2.2 (by decide)⟩

/-- C7: the remote `clear_all_data` wipe empties both namespaces and forgets
the WiFi association before restarting, for every device state; the local
long-press reset only forgets the WiFi association and restarts, leaving both
namespaces unchanged. -/
theorem clearAllData_vs_resetConfig (d : Device) :
    (clearAllData d).1.iot = [] ∧
    (clearAllData d).1.flags = [] ∧
    (clearAllData d).1.wifiAssociated = false ∧
    (clearAllData d).1.restarted = true ∧
    (clearAllData d).2.getLast? = some Effect.restart ∧
    (resetConfig d).1.iot = d.iot ∧
    (resetConfig d).1.flags = d.flags ∧
    (resetConfig d).1.wifiAssociated = false ∧
    (resetConfig d).1.restarted = true ∧
    (resetConfig d).2.getLast? = some Effect.restart := by
  simp [clearAllData, resetConfig, List.getLast?]

/-- C9: calling `publishData` while the MQTT client is disconnected is a
complete no-op: the state (publish list, power pin, `firstMessageSent`) is
unchanged and no effect is produced. -/
theorem publishData_disconnected_noop (d : Device) (status : String)
    (hc : d.connected = false) :
    publishData d status = (d, []) := by
  simp [publishData, hc]

theorem publishData_disconnected_noop_witness :
    publishData sampleDisconnectedDevice "system_startup" =
      (sampleDisconnectedDevice, []) :=
  publishData_disconnected_noop sampleDisconnectedDevice "system_startup"
    (by decide)

/-- C2: publishing `"system_startup"` while connected: when the button pin
reads `HIGH` (not held) and the startup power-off has not yet fired, the power
pin is driven `LOW` 500 ms after the message is published (the effect trace
is publish, delay 500 ms, power low, delay 100 ms); when the button pin reads
`LOW` (held), the call leaves the power pin unchanged. -/
theorem publishData_startup (d : Device) (hc : d.connected = true) :
    (d.buttonHigh = true → d.firstMessageSent = false →
       (publishData d "system_startup").1.powerHigh = false ∧
       (publishData d "system_startup").2 =
         [Effect.publish (jsonStatus "system_startup"), Effect.delayMs 500,
          Effect.setPower false, Effect.delayMs 100]) ∧
    (d.buttonHigh = false →
       (publishData d "system_startup").1.powerHigh = d.powerHigh ∧
       (publishData d "system_startup").2 =
         [Effect.publish (jsonStatus "system_startup")]) := by
  constructor
  · intro hb hf
    simp [publishData, hc, hb, hf]
  · intro hb
    simp [publishData, hc, hb]

theorem publishData_startup_witness :
    ((publishData sampleDevice "system_startup").1.powerHigh = false ∧
     (publishData sampleDevice "system_startup").2 =
       [Effect.publish (jsonStatus "system_startup"), Effect.delayMs 500,
        Effect.setPower false, Effect.delayMs 100]) ∧
    ((publishData sampleHeldDevice "system_startup").1.powerHigh =
       sampleHeldDevice.powerHigh ∧
     (publishData sampleHeldDevice "system_startup").2 =
       [Effect.publish (jsonStatus "system_startup")]) :=
  ⟨(publishData_startup sampleDevice (by decide)).1 (by decide) (by decide),
   (publishData_startup sampleHeldDevice (by decide)).2 (by decide)⟩

/-- C6: the message callback dispatches exactly three payloads by exact,
case-sensitive match: `"clear_all_data"` performs the full wipe, `"on"`
asserts the power pin and then publishes status `"on"`, `"off"` deasserts it
and then publishes status `"off"`, and every other payload leaves the state
unchanged and produces no effect. -/
theorem callback_dispatch (d : Device) (msg : String) :
    (msg = "clear_all_data" →
       (callbackStep d msg).1.iot = [] ∧
       (callbackStep d msg).1.flags = [] ∧
       (callbackStep d msg).1.wifiAssociated = false ∧
       (callbackStep d msg).1.restarted = true) ∧
    (msg = "on" →
       (callbackStep d msg).1.powerHigh = true ∧
       (d.connected = true →
          (callbackStep d msg).1.published =
            d.published ++ [jsonStatus "on"] ∧
          (callbackStep d msg).2 =
            [Effect.setPower true, Effect.publish (jsonStatus "on")])) ∧
    (msg = "off" →
       (callbackStep d msg).1.powerHigh = false ∧
       (d.connected = true →
          (callbackStep d msg).1.published =
            d.published ++ [jsonStatus "off"] ∧
          (callbackStep d msg).2 =
            [Effect.setPower false, Effect.publish (jsonStatus "off")])) ∧
    (msg ≠ "clear_all_data" → msg ≠ "on" → msg ≠ "off" →
       callbackStep d msg = (d, [])) := by
  refine ⟨?_, ?_, ?_, ?_⟩
  · intro h
    simp [callbackStep, h, clearAllData]
  · intro h
    subst h
    refine ⟨?_, ?_⟩
    · by_cases hc : d.connected <;>
        simp [callbackStep, publishData, hc]
    · intro hc
      simp [callbackStep, publishData, hc]
  · intro h
    subst h
    refine ⟨?_, ?_⟩
    · by_cases hc : d.connected <;>
        simp [callbackStep, publishData, hc]
    · intro hc
      simp [callbackStep, publishData, hc]
  · intro h1 h2 h3
    simp [callbackStep, h1, h2, h3]

theorem callback_dispatch_witness :
    ((callbackStep sampleDevice "clear_all_data").1.iot = [] ∧
     (callbackStep sampleDevice "clear_all_data").1.flags = [] ∧
     (callbackStep sampleDevice "clear_all_data").1.wifiAssociated = false ∧
     (callbackStep sampleDevice "clear_all_data").1.restarted = true) ∧
    (callbackStep sampleDevice "on").1.powerHigh = true ∧
    (callbackStep sampleDevice "off").1.powerHigh = false ∧
    callbackStep sampleDevice "hello" = (sampleDevice, []) :=
  ⟨(callback_dispatch sampleDevice "clear_all_data").1 rfl,
   ((callback_dispatch sampleDevice "on").2.1 rfl).1,
   ((callback_dispatch sampleDevice "off").2.2.1 rfl).1,
   (callback_dispatch sampleDevice "hello").2.2.2 (by decide) (by decide)
     (by decide)⟩

/-- C10: the `firstMessageSent` latch is set by `publishData` exactly when
the startup power-off condition fires (connected, payload
`"system_startup"`, button not held), and is never cleared: once set, any
later `publishData` call leaves the power pin unchanged, and the message
callback never clears the latch. -/
theorem firstMessageSent_latch (d : Device) (status msg : String) :
    ((publishData d status).1.firstMessageSent =
       (d.firstMessageSent ||
        (d.connected && ((status == "system_startup") && d.buttonHigh)))) ∧
    (d.firstMessageSent = true →
       (publishData d status).1.powerHigh = d.powerHigh) ∧
    (d.firstMessageSent = true →
       (callbackStep d msg).1.firstMessageSent = true) := by
  refine ⟨?_, ?_, ?_⟩
  · by_cases hc : d.connected <;> by_cases hf : d.firstMessageSent <;>
      by_cases hb : d.buttonHigh <;> by_cases hs : status = "system_startup" <;>
      simp [publishData, hc, hf, hb, hs]
  · intro hf
    by_cases hc : d.connected <;> simp [publishData, hc, hf]
  · intro hf
    by_cases h1 : msg = "clear_all_data"
    · simp [callbackStep, h1, clearAllData, hf]
    · by_cases h2 : msg = "on"
      · by_cases hc : d.connected <;>
          simp [callbackStep, h1, h2, publishData, hc, hf]
      · by_cases h3 : msg = "off"
        · by_cases hc : d.connected <;>
            simp [callbackStep, h1, h2, h3, publishData, hc, hf]
        · simp [callbackStep, h1, h2, h3, hf]

theorem firstMessageSent_latch_witness :
    ((publishData sampleLatchedDevice "system_startup").1.firstMessageSent =
       (sampleLatchedDevice.firstMessageSent ||
        (sampleLatchedDevice.connected &&
         (("system_startup" == "system_startup") &&
          sampleLatchedDevice.buttonHigh)))) ∧
    (publishData sampleLatchedDevice "system_startup").1.powerHigh =
      sampleLatchedDevice.powerHigh ∧
    (callbackStep sampleLatchedDevice "on").1.firstMessageSent = true :=
  ⟨(firstMessageSent_latch sampleLatchedDevice "system_startup" "on").1,
   (firstMessageSent_latch sampleLatchedDevice "system_startup" "on").2.1
     (by decide),
   (firstMessageSent_latch sampleLatchedDevice "system_startup" "on").2.2
     (by decide)⟩

/-- C8: a `connectMQTT` call while disconnected makes at most three
handshake attempts, succeeds as soon as one attempt does (subscribing to
`<topic>/control` and producing one 2000 ms delay per preceding failure),
and returns failure after three failed attempts instead of retrying further. -/
theorem connectMQTT_bounded_retry (attempt : Nat → Bool) (topic : String) :
    (connectMQTT attempt topic false).2.1 ≤ 3 ∧
    (connectMQTT attempt topic false).1 =
      (attempt 0 || attempt 1 || attempt 2) ∧
    (connectMQTT attempt topic false).2.1 =
      (if attempt 0 then 1 else if attempt 1 then 2 else 3) ∧
    (connectMQTT attempt topic false).2.2 =
      (if attempt 0 then [Effect.subscribe (topic ++ "/control")]
       else if attempt 1 then
         [Effect.delayMs 2000, Effect.subscribe (topic ++ "/control")]
       else if attempt 2 then
         [Effect.delayMs 2000, Effect.delayMs 2000,
          Effect.subscribe (topic ++ "/control")]
       else [Effect.delayMs 2000, Effect.delayMs 2000, Effect.delayMs 2000]) := by
  by_cases h0 : attempt 0 <;> by_cases h1 : attempt 1 <;>
    by_cases h2 : attempt 2 <;>
    simp [connectMQTT, connectGo, h0, h1, h2]

/-- Helper: the boot-time load is exactly the per-field description
`loadAmendedSpec`. -/
theorem bootLoad_perField (iot : Prefs) : bootLoad iot = loadAmendedSpec iot := by
  unfold bootLoad loadConfigFields setupPowerPinLoad loadAmendedSpec
  by_cases hs : getString iot "server" "" = "" <;>
    by_cases hl : getString iot "led_pin" "" = "" <;>
    by_cases hb : getString iot "button_pin" "" = "" <;>
    by_cases hp : getString iot "power_pin" "" = "" <;>
    simp [hs, hl, hb, hp, defaultConfig]

/-- C3 (counterexample): the boot-time load is not field-independent.  With
only `"topic"` stored in `iot_config`, the stored topic exists but the loaded
configuration keeps the compiled default `"esp32"`: the messaging fields are
read only when a stored server value exists and is non-empty. -/
theorem load_fieldIndependence_counterexample :
    prefsGet [("topic", "mytopic")] "topic" = some "mytopic" ∧
    (bootLoad [("topic", "mytopic")]).mqtt_topic ≠ "mytopic" ∧
    (bootLoad [("topic", "mytopic")]).mqtt_topic = defaultConfig.mqtt_topic := by
  refine ⟨by decide, by decide, by decide⟩

/-- C3 (amended): the boot-time load treats the server field and the three
pin fields independently — each takes the stored value when a non-empty one
exists and the compiled default otherwise — while port, user, password and
topic are taken from the store only when the stored server is non-empty
(with per-key read defaults `"1883"`, `""`, `""`, `"esp32c2"` for absent
keys), and retain the compiled defaults otherwise. -/
theorem bootLoad_amended (iot : Prefs) : bootLoad iot = loadAmendedSpec iot :=
  bootLoad_perField iot

/-- C4 (counterexample): the save/load round-trip fails in general.  Saving a
configuration whose server is the empty string and whose topic is `"custom"`
and rebooting loads topic `"esp32"`, not `"custom"`: the loader skips the
messaging fields because the stored server is empty. -/
theorem saveLoad_roundTrip_counterexample :
    bootLoad (saveConfig emptyServerConfig []) ≠ emptyServerConfig ∧
    (bootLoad (saveConfig emptyServerConfig [])).mqtt_topic = "esp32" ∧
    emptyServerConfig.mqtt_topic = "custom" := by
  refine ⟨by decide, by decide, by decide⟩

/-- C4 (amended): for every configuration whose server and three pin fields
are non-empty, saving all eight fields and then performing the boot-time
load against the resulting store yields the saved configuration
field-for-field, whatever the prior contents of the store. -/
theorem saveLoad_roundTrip (c : Config) (p : Prefs)
    (hs : c.mqtt_server ≠ "") (hb : c.button_pin ≠ "")
    (hl : c.led_pin ≠ "") (hp : c.power_pin ≠ "") :
    bootLoad (saveConfig c p) = c := by
  have g1 : getString (saveConfig c p) "server" "" = c.mqtt_server := by
    simp [saveConfig, getString, prefsGet_putString_same,
          prefsGet_putString_other]
  have g2 : getString (saveConfig c p) "port" "1883" = c.mqtt_port := by
    simp [saveConfig, getString, prefsGet_putString_same,
          prefsGet_putString_other]
  have g3 : getString (saveConfig c p) "user" "" = c.mqtt_user := by
    simp [saveConfig, getString, prefsGet_putString_same,
          prefsGet_putString_other]
  have g4 : getString (saveConfig c p) "password" "" = c.mqtt_password := by
    simp [saveConfig, getString, prefsGet_putString_same,
          prefsGet_putString_other]
  have g5 : getString (saveConfig c p) "topic" "esp32c2" = c.mqtt_topic := by
    simp [saveConfig, getString, prefsGet_putString_same,
          prefsGet_putString_other]
  have g6 : getString (saveConfig c p) "button_pin" "" = c.button_pin := by
    simp [saveConfig, getString, prefsGet_putString_same,
          prefsGet_putString_other]
  have g7 : getString (saveConfig c p) "led_pin" "" = c.led_pin := by
    simp [saveConfig, getString, prefsGet_putString_same,
          prefsGet_putString_other]
  have g8 : getString (saveConfig c p) "power_pin" "" = c.power_pin := by
    simp [saveConfig, getString, prefsGet_putString_same,
          prefsGet_putString_other]
  rw [bootLoad_perField]
  unfold loadAmendedSpec
  rw [g1, g2, g3, g4, g5, g6, g7, g8]
  simp [hs, hb, hl, hp]

theorem saveLoad_roundTrip_witness :
    bootLoad (saveConfig sampleConfig []) = sampleConfig :=
  saveLoad_roundTrip sampleConfig [] (by decide) (by decide) (by decide)
    (by decide)

/-- C5 (counterexample): a button held for exactly the 5000 ms threshold does
not trigger the reset.  With the press first sampled at 100 ms, still held at
5100 ms (elapsed exactly `RESET_HOLD_TIME`) and released at 5200 ms, the
reset count stays 0, because the code requires the elapsed time to be
strictly greater than the threshold. -/
theorem checkResetButton_exactThreshold_counterexample :
    (runButton ⟨0, false, 0⟩ [(100, false), (5100, false), (5200, true)]).resets
      = 0 ∧
    (runButton ⟨0, false, 0⟩ [(100, false), (5100, false), (5200, true)]).resets
      ≠ 1 := by
  refine ⟨by decide, by decide⟩

/-- C5 (amended): over once-per-loop samples (first pressed sample at a
nonzero `millis` value), a sustained press triggers the reset exactly once
when some later sample is strictly beyond the 5000 ms threshold from the
press-start sample, and never otherwise; releasing clears the press-start
timestamp and the latch; after a release, a second sustained press triggers
its own, independent reset under the same strict-threshold condition. -/
theorem checkResetButton_amended (n t0 tr t0p : Nat) (ts tsp : List Nat)
    (h0 : t0 ≠ 0) (h0p : t0p ≠ 0) :
    ((runButton ⟨0, false, n⟩ (holdTrace (t0 :: ts))).resets =
       n + (if ts.any (fun t => decide (RESET_HOLD_TIME < t - t0)) then 1
            else 0)) ∧
    (runButton ⟨0, false, n⟩ (holdTrace (t0 :: ts) ++ [(tr, true)]) =
       ⟨0, false,
        n + (if ts.any (fun t => decide (RESET_HOLD_TIME < t - t0)) then 1
             else 0)⟩) ∧
    ((runButton ⟨0, false, n⟩
        ((holdTrace (t0 :: ts) ++ [(tr, true)]) ++ holdTrace (t0p :: tsp))).resets =
       n + (if ts.any (fun t => decide (RESET_HOLD_TIME < t - t0)) then 1
            else 0)
         + (if tsp.any (fun t => decide (RESET_HOLD_TIME < t - t0p)) then 1
            else 0)) := by
  have hfirst : checkResetButton ⟨0, false, n⟩ t0 false = ⟨t0, false, n⟩ := by
    simp [checkResetButton]
  have hhold :
      runButton ⟨0, false, n⟩ (holdTrace (t0 :: ts)) =
        if ts.any (fun t => decide (RESET_HOLD_TIME < t - t0)) then
          ⟨t0, true, n + 1⟩
        else ⟨t0, false, n⟩ := by
    have := runButton_hold_pressed ts t0 n h0
    simp only [holdTrace, List.map_cons] at this ⊢
    rw [runButton_cons]
    simpa [hfirst] using this
  have hrelease :
      runButton ⟨0, false, n⟩ (holdTrace (t0 :: ts) ++ [(tr, true)]) =
        ⟨0, false,
         n + (if ts.any (fun t => decide (RESET_HOLD_TIME < t - t0)) then 1
              else 0)⟩ := by
    rw [runButton_append, hhold]
    by_cases hany : ts.any (fun t => decide (RESET_HOLD_TIME < t - t0)) <;>
      simp [hany, runButton, checkResetButton_release]
  refine ⟨?_, hrelease, ?_⟩
  · rw [hhold]
    by_cases hany : ts.any (fun t => decide (RESET_HOLD_TIME < t - t0)) <;>
      simp [hany]
  · rw [runButton_append, hrelease]
    have hfirstp :
        checkResetButton
          ⟨0, false,
           n + (if ts.any (fun t => decide (RESET_HOLD_TIME < t - t0)) then 1
                else 0)⟩ t0p false =
          ⟨t0p, false,
           n + (if ts.any (fun t => decide (RESET_HOLD_TIME < t - t0)) then 1
                else 0)⟩ := by
      simp [checkResetButton]
    have hholdp := runButton_hold_pressed tsp t0p
      (n + (if ts.any (fun t => decide (RESET_HOLD_TIME < t - t0)) then 1
            else 0)) h0p
    simp only [holdTrace, List.map_cons] at hholdp ⊢
    rw [runButton_cons]
    simp only [hfirstp]
    rw [show (List.map (fun t => (t, false)) tsp) = holdTrace tsp from rfl] at hholdp ⊢
    rw [hholdp]
    by_cases hanyp : tsp.any (fun t => decide (RESET_HOLD_TIME < t - t0p)) <;>
      simp [hanyp]

theorem checkResetButton_amended_witness :
    (runButton ⟨0, false, 0⟩
        ((holdTrace [100, 6000] ++ [(7000, true)]) ++ holdTrace [8000, 14000])).resets
      = 0 + (if [6000].any (fun t => decide (RESET_HOLD_TIME < t - 100)) then 1
             else 0)
          + (if [14000].any (fun t => decide (RESET_HOLD_TIME < t - 8000)) then 1
             else 0) :=
  (checkResetButton_amended 0 100 7000 8000 [6000] [14000] (by decide)
    (by decide)).2.2

end MqttSwitch
